import Mathlib

/-!
Verification of the RAG query-orchestration pipeline
(`lib/rag/services/rag-orchestrator.service.ts`) against its
natural-language specification.

The orchestrator's data model and operations are shallowly embedded as
executable Lean functions, translated clause by clause from the
TypeScript source.  External collaborators (vector search, reranker,
context compression, document grading, response generation) are repo
modules that are not part of the sources under verification; they are
modelled from the spec's collaborator contracts (spec §6) as
deterministic oracles that either return a value or reject with a
JavaScript-style error.  Observable interactions with collaborators are
recorded as an event trace so that claims about "which collaborator was
invoked with what" become statements about the trace.
-/

namespace RagOrch

/-- Modelled from the spec (§3, §6): `SearchResult` is produced by the
vector-search collaborator (`types/rag-types`, not under the verified
sources): documentId, chunkId, content text, similarity score, chunk
metadata (elided; the orchestrator only threads it through). -/
structure SearchResult where
  documentId : String
  chunkId : String
  content : String
  similarity : Option ℚ
  deriving DecidableEq

/-- Modelled from the spec (§3): an allow-listed indexed document
(`document-permissions`, not under the verified sources): id, display
name, page count.  `numPages` and `documentName` are optional, matching
the `doc.numPages || 0` and `doc.documentName || 'Unknown Document'`
accesses in the orchestrator. -/
structure AccessibleDocument where
  documentId : String
  documentName : Option String
  numPages : Option Nat
  deriving DecidableEq

/-- `UnifiedQueryAnalysisResult['queryRewriting']`: rewritten query
variants (entries may be `undefined`, hence `Option String`), a
hypothetical answer, and the HyDE flag. -/
structure QueryRewriting where
  rewrittenQueries : List (Option String)
  hydeAnswer : Option String
  requiresHyde : Bool
  deriving DecidableEq

/-- `QueryExtraction` (orchestrator source, lines 69-72) together with
the optional `queryRewriting` attachment (lines 81-83).  Page numbers
are JavaScript numbers compared against `page < 1`, hence `Int`. -/
structure QueryExtraction where
  pageNumbers : List Int
  keywords : List String
  queryRewriting : Option QueryRewriting
  deriving DecidableEq

/-- `SearchStrategy` (source line 59). -/
inductive SearchStrategy
  | FastVectorSearch
  | StandardVectorSearch
  | ExpandedSearch
  | PageQueryStrategy
  deriving DecidableEq

/-- `PipelineContext` (source lines 74-87), restricted to the fields the
verified operations read: query text, dataroom scope id, allow-listed
documents, optional query-extraction result.  Conversation history,
intent, chat-session id, tracker and the cancellation signal are
threaded through unchanged by the orchestrator and are not needed to
state the claims (the signal is modelled separately, see
`pipelineSignalAborted`). -/
structure PipelineContext where
  query : String
  dataroomId : String
  indexedDocuments : List AccessibleDocument
  queryExtraction : Option QueryExtraction
  deriving DecidableEq

/-- A JavaScript `Error`: the orchestrator's catch handler branches on
`error.name` and `error.message` only. -/
structure JSError where
  name : String
  message : String
  deriving DecidableEq

/-- `GradedDocument` (spec §3): the record shape the orchestrator
synthesizes on the fast path (lines 405-415) and the page path
(lines 355-365), and that the grading collaborator returns. -/
structure GradedDoc where
  documentId : String
  chunkId : String
  relevanceScore : ℚ
  confidence : ℚ
  reasoning : String
  isRelevant : Bool
  suggestedWeight : ℚ
  originalContent : String
  deriving DecidableEq

/-- The loosely-typed (`any[]`) per-stage payload passed to source
building: either a genuine `GradedDocument` record or a raw
reranked `SearchResult` passed through unchanged (line 476 of the
source assigns `relevantDocuments = rerankedResults`). -/
inductive PipelineDoc
  | graded (g : GradedDoc)
  | raw (r : SearchResult)
  deriving DecidableEq

/-- Reading the `isRelevant` property of a loosely-typed payload
element: a raw `SearchResult` has no such property (JavaScript
`undefined`, modelled as `none`). -/
def PipelineDoc.isRelevantField : PipelineDoc → Option Bool
  | .graded g => some g.isRelevant
  | .raw _ => none

/-- The metadata filter record built by `buildMetadataFilter`
(source lines 661-682); every key is optional because the source
assembles the object key by key. -/
structure MetadataFilter where
  documentIds : Option (List String)
  pageRanges : Option (List String)
  dataroomId : Option String
  deriving DecidableEq

/-- `Object.keys(filter).length` for the filter object (only keys that
were actually assigned count). -/
def MetadataFilter.keyCount (f : MetadataFilter) : Nat :=
  (if f.documentIds.isSome then 1 else 0) +
  (if f.pageRanges.isSome then 1 else 0) +
  (if f.dataroomId.isSome then 1 else 0)

/-- JavaScript `v || d` on an optional number: `undefined` and `0` are
falsy and yield the default. -/
def jsOr (v : Option ℚ) (d : ℚ) : ℚ :=
  match v with
  | some s => if s = 0 then d else s
  | none => d

/-- JavaScript truthiness of an optional string: defined and
non-empty. -/
def jsTruthyStr : Option String → Bool
  | some s => !(s == "")
  | none => false

/-- The whitespace characters `String.prototype.trim` strips (space,
tab, line feed, carriage return, vertical tab, form feed; the exotic
Unicode space classes never occur in the verified strings). -/
def isJsWhitespace (c : Char) : Bool :=
  c == ' ' || c == '\t' || c == '\n' || c == '\r' ||
    c == Char.ofNat 11 || c == Char.ofNat 12

/-- JavaScript `s.trim()`: strip leading and trailing whitespace. -/
def jsTrim (s : String) : String :=
  ⟨(((s.data.dropWhile isJsWhitespace).reverse.dropWhile isJsWhitespace)).reverse⟩

/-- Character-list version of "starts with". -/
def charsLeading : List Char → List Char → Bool
  | [], _ => true
  | _ :: _, [] => false
  | a :: as, b :: bs => a == b && charsLeading as bs

/-- Character-list version of "occurs inside". -/
def charsContain (needle : List Char) : List Char → Bool
  | [] => needle.isEmpty
  | h :: t => charsLeading needle (h :: t) || charsContain needle t

/-- JavaScript `hay.includes(needle)`. -/
def strIncludes (hay needle : String) : Bool :=
  charsContain needle.toList hay.toList

/-- `msg` mentions `sub`: `sub` occurs verbatim inside `msg`. -/
def mentions (msg sub : String) : Prop :=
  ∃ a b : String, msg = a ++ sub ++ b

/-!  ## Deduplication

Both `removeDuplicateResults` (source lines 649-658, a `filter` over a
growing `Set` of seen chunkIds) and the `Array.from(new Set(...))` step
of `buildQueriesForStrategy` (line 536, insertion-ordered string set)
keep the first occurrence of each key.  `dedupBy` is that common
seen-set filter, with the set represented as the list of keys seen so
far. -/
def dedupBy {α β : Type} [DecidableEq β] (key : α → β) : List α → List β → List α
  | [], _ => []
  | x :: xs, seen =>
    if key x ∈ seen then dedupBy key xs seen
    else x :: dedupBy key xs (key x :: seen)

/-- `removeDuplicateResults` (source lines 649-658): drop every result
whose `chunkId` was already seen. -/
def removeDuplicateResults (results : List SearchResult) : List SearchResult :=
  dedupBy (fun r => r.chunkId) results []

/-!  ## Query-variant construction (source lines 516-547) -/

/-- `PIPELINE_LIMITS` (source lines 17-21). -/
def MAX_STANDARD_QUERIES : Nat := 15

def MAX_EXPANDED_QUERIES : Nat := 20

def MAX_FAST_QUERIES : Nat := 3

/-- `getMaxQueriesForStrategy` (source lines 540-547); the TypeScript
`default` branch returns the standard limit, which is what
`PageQueryStrategy` would hit. -/
def getMaxQueriesForStrategy : SearchStrategy → Nat
  | .FastVectorSearch => MAX_FAST_QUERIES
  | .StandardVectorSearch => MAX_STANDARD_QUERIES
  | .ExpandedSearch => MAX_EXPANDED_QUERIES
  | .PageQueryStrategy => MAX_STANDARD_QUERIES

/-- The rewritten-query list reached through
`context.queryExtraction?.queryRewriting?.rewrittenQueries`; a missing
link yields the empty list (both `undefined` and `[]` are falsy for the
`?.length` guard, and slicing either appends nothing). -/
def rewrittenOf (ctx : PipelineContext) : List (Option String) :=
  match ctx.queryExtraction with
  | some qe =>
    match qe.queryRewriting with
    | some qr => qr.rewrittenQueries
    | none => []
  | none => []

/-- The HyDE append step (source lines 529-533): for `ExpandedSearch`
only, when `hydeAnswer` is truthy (defined and non-empty) and
`requiresHyde` is set, the hypothetical answer is pushed. -/
def hydeToAppend (ctx : PipelineContext) (strategy : SearchStrategy) : List String :=
  match strategy, ctx.queryExtraction with
  | .ExpandedSearch, some qe =>
    match qe.queryRewriting with
    | some qr =>
      match qr.hydeAnswer with
      | some h => if !(h == "") && qr.requiresHyde then [h] else []
      | none => []
    | none => []
  | _, _ => []

/-- `buildQueriesForStrategy` (source lines 516-537): start from the
raw query, append up to `maxQueries - 1` defined rewritten queries,
append the HyDE answer for `ExpandedSearch`, then trim, drop empties
and deduplicate keeping first occurrences. -/
def buildQueriesForStrategy (ctx : PipelineContext) (strategy : SearchStrategy) : List String :=
  let maxQueries := getMaxQueriesForStrategy strategy
  let rewritten := rewrittenOf ctx
  let base :=
    if rewritten.length ≠ 0 then
      [ctx.query] ++ (rewritten.take (maxQueries - 1)).filterMap id
    else [ctx.query]
  let withHyde := base ++ hydeToAppend ctx strategy
  dedupBy id ((withHyde.map jsTrim).filter (fun q => !(q == ""))) []

/-!  ## Page validation (source lines 729-773) -/

/-- `Math.max(...indexedDocuments.map(doc => doc.numPages || 0))`
(source line 744); over a non-empty list of naturals the fold with
identity `0` computes the same maximum. -/
def maxPagesInDocuments (docs : List AccessibleDocument) : Nat :=
  (docs.map (fun d => d.numPages.getD 0)).foldl max 0

/-- `requestedPages.filter(page => page < 1 || page > maxPagesInDocuments)`
(source line 753). -/
def invalidPagesFor (requestedPages : List Int) (docs : List AccessibleDocument) : List Int :=
  requestedPages.filter
    (fun p => decide (p < 1) || decide ((maxPagesInDocuments docs : Int) < p))

/-- The `{ isValid, errorMessage? }` result of page validation. -/
structure PageValidation where
  isValid : Bool
  errorMessage : Option String
  deriving DecidableEq

/-- `validatePagesAgainstDocuments` (source lines 729-773). -/
def validatePagesAgainstDocuments (requestedPages : List Int)
    (indexedDocuments : List AccessibleDocument) : PageValidation :=
  if requestedPages.isEmpty then ⟨true, none⟩
  else if indexedDocuments.isEmpty then
    ⟨false, some "No documents available to validate pages against"⟩
  else
    let maxPages := maxPagesInDocuments indexedDocuments
    if maxPages = 0 then
      ⟨false, some "Documents have no page information available"⟩
    else
      let invalidPages := invalidPagesFor requestedPages indexedDocuments
      if invalidPages.isEmpty then ⟨true, none⟩
      else
        let invalidPageList := String.intercalate ", " (invalidPages.map toString)
        let documentNames := String.intercalate ", "
          (indexedDocuments.map (fun d => d.documentName.getD "Unknown Document"))
        if invalidPages.length = 1 then
          ⟨false, some ("Page " ++ invalidPageList ++
            " doesn't exist in your documents. The available documents (" ++
            documentNames ++ ") have " ++ toString maxPages ++
            (if maxPages = 1 then " page" else " pages") ++
            " (pages 1-" ++ toString maxPages ++
            "). Try asking about content within that range.")⟩
        else
          ⟨false, some ("Pages " ++ invalidPageList ++
            " don't exist in your documents. The available documents (" ++
            documentNames ++ ") have " ++ toString maxPages ++
            (if maxPages = 1 then " page" else " pages") ++
            " (pages 1-" ++ toString maxPages ++
            "). Try asking about content within that range.")⟩

/-!  ## Metadata filter construction (source lines 560-593, 661-682) -/

/-- `context.queryExtraction?.pageNumbers && ... .length > 0`
(source line 564). -/
def hasPageNumbers (ctx : PipelineContext) : Bool :=
  match ctx.queryExtraction with
  | some qe => decide (qe.pageNumbers.length > 0)
  | none => false

/-- The page-number list reached through `queryExtraction?.pageNumbers`
(empty when the extraction is absent). -/
def pageNumbersOf (ctx : PipelineContext) : List Int :=
  (ctx.queryExtraction.map (fun qe => qe.pageNumbers)).getD []

/-- `context.indexedDocuments.map(doc => doc.documentId)`
(source line 560). -/
def docIdsOf (ctx : PipelineContext) : List String :=
  ctx.indexedDocuments.map (fun d => d.documentId)

/-- `buildMetadataFilter` (source lines 661-682): always assign
`dataroomId`, assign `documentIds` when the allow-list is non-empty,
assign `pageRanges` when explicit page numbers exist, and return the
object only when it has more than one key. -/
def buildMetadataFilter (ctx : PipelineContext) : Option MetadataFilter :=
  let documentIds :=
    if ctx.indexedDocuments.length > 0 then some (docIdsOf ctx) else none
  let pageRanges :=
    if (pageNumbersOf ctx).length > 0 then some ((pageNumbersOf ctx).map toString)
    else none
  let f : MetadataFilter := ⟨documentIds, pageRanges, some ctx.dataroomId⟩
  if f.keyCount > 1 then some f else none

/-- The seventh argument actually handed to the search collaborator
(source lines 564-565 and 588):
`useMetadataFilter ? metadataFilter || undefined : undefined`, with
`useMetadataFilter = hasPageNumbers && metadataFilter`. -/
def passedFilter (ctx : PipelineContext) : Option MetadataFilter :=
  let metadataFilter := buildMetadataFilter ctx
  if hasPageNumbers ctx && metadataFilter.isSome then metadataFilter else none

/-!  ## Collaborator oracles and the observable event trace -/

/-- Modelled from the spec (§6): the external collaborator contracts
consumed by the orchestrator —
`search(query, scopeId, documentIds, {params}, metadataFilter?)`,
`rerank(query, results)`, `compress(results, query)`,
`gradeAndFilter(query, results)`.  Each is a deterministic oracle; an
`Except.error` models a rejected promise.  The cancellation signal and
the per-strategy numeric search parameters are threaded through
unchanged by the orchestrator and do not influence any claim, so they
are not part of the oracle arguments. -/
structure Collaborators where
  search : String → String → List String → Option MetadataFilter →
    Except JSError (List SearchResult)
  rerank : String → List SearchResult → Except JSError (List SearchResult)
  compress : List SearchResult → String → Except JSError String
  grade : String → List SearchResult → Except JSError (List GradedDoc)

/-- One observable collaborator interaction. -/
inductive Event
  | searchCall (query : String) (dataroomId : String) (docIds : List String)
      (filter : Option MetadataFilter)
  | rerankCall
  | compressCall
  | gradeCall
  | buildSourcesCall (docs : List PipelineDoc)
  | generateCall (contextText : String)
  | fallbackCall (message : String)
  deriving DecidableEq

/-- Modelled from the spec (§6): the two answer-producing entry points
of the response-generation collaborator, `generateAnswer(contextText,
history, query, sources, ...)` and `createFallbackResponse(reasonOrQuery)`.
Both stream an answer; the model keeps the arguments that identify
which answer was produced. -/
inductive Answer
  | generated (contextText : String) (query : String)
  | fallback (message : String)
  deriving DecidableEq

/-- The queries of the `searchCall` events of a trace. -/
def searchCallQueries (evs : List Event) : List String :=
  evs.filterMap (fun ev =>
    match ev with
    | .searchCall q _ _ _ => some q
    | _ => none)

/-- The document sets handed to the source-building collaborator. -/
def buildSourcesDocsCalls (evs : List Event) : List (List PipelineDoc) :=
  evs.filterMap (fun ev =>
    match ev with
    | .buildSourcesCall docs => some docs
    | _ => none)

/-- The context texts handed to answer generation. -/
def generateCallContexts (evs : List Event) : List String :=
  evs.filterMap (fun ev =>
    match ev with
    | .generateCall s => some s
    | _ => none)

/-- Refinement-collaborator interactions: rerank, compress, grade. -/
def isRefinementEvent : Event → Bool
  | .rerankCall => true
  | .compressCall => true
  | .gradeCall => true
  | _ => false

/-- How many rerank/compress/grade invocations a trace contains. -/
def countRefinementCalls (evs : List Event) : Nat :=
  (evs.filter isRefinementEvent).length

/-!  ## Concurrent retrieval (source lines 550-624) -/

/-- One search-variant call (source lines 577-601): the collaborator is
invoked with the variant text, the dataroom id, the document-id
allowlist and the optional metadata filter; any rejection (including
the per-variant timeout race losing) is caught and contributes the
empty list for that variant only. -/
def searchVariant (c : Collaborators) (ctx : PipelineContext) (q : String) :
    List SearchResult :=
  match c.search q ctx.dataroomId (docIdsOf ctx) (passedFilter ctx) with
  | .ok results => results
  | .error _ => []

/-- `performVectorSearch` (source lines 550-624): fan out one search
call per variant, await all, concatenate the per-variant results in
variant order, then deduplicate by chunkId.  The trace records one
`searchCall` per variant. -/
def performVectorSearch (c : Collaborators) (searchQueries : List String)
    (ctx : PipelineContext) : List SearchResult × List Event :=
  let events := searchQueries.map
    (fun q => Event.searchCall q ctx.dataroomId (docIdsOf ctx) (passedFilter ctx))
  let allResults := (searchQueries.map (searchVariant c ctx)).flatten
  (removeDuplicateResults allResults, events)

/-!  ## Shared processing pipeline (source lines 395-513) -/

/-- The synthesized `GradedDocument` of the fast path
(source lines 405-415). -/
def fastGradedDoc (r : SearchResult) : GradedDoc :=
  ⟨r.documentId, r.chunkId, jsOr r.similarity 0.8, 0.8,
    "Fast path optimization", true, 0.8, r.content⟩

/-- The synthesized `GradedDocument` of the page-query path
(source lines 355-365). -/
def pageGradedDoc (r : SearchResult) : GradedDoc :=
  ⟨r.documentId, r.chunkId, jsOr r.similarity 0.9, 0.9,
    "Direct page match", true, 1.0, r.content⟩

/-- `searchResults.map(r => r.content).join('\n\n')` — the raw
blank-line-joined context text. -/
def joinContents (results : List SearchResult) : String :=
  String.intercalate "\n\n" (results.map (fun r => r.content))

/-- The tail of the shared pipeline after reranking has succeeded and a
context text has been fixed (source lines 459-506): attempt grading —
on failure the raw reranked results are passed through unchanged
(line 476) — then build sources and generate the answer with the
chosen context text.  Answer generation is modelled as total; its own
fallback-on-error branch (lines 500-506) is not reached in the
model. -/
def sharedTail (c : Collaborators) (ctx : PipelineContext)
    (rerankedResults : List SearchResult) (content : String)
    (evs : List Event) : Except JSError Answer × List Event :=
  let relevantDocuments : List PipelineDoc :=
    match c.grade ctx.query rerankedResults with
    | .ok graded => graded.map PipelineDoc.graded
    | .error _ => rerankedResults.map PipelineDoc.raw
  (.ok (.generated content ctx.query),
    evs ++ [.gradeCall, .buildSourcesCall relevantDocuments, .generateCall content])

/-- `executeSharedProcessingPipeline` (source lines 395-513).  Fast
path: synthesize graded documents, build sources, generate with the
raw joined context.  Otherwise run rerank and compress concurrently
(`Promise.all`, both invoked); if either rejects, the catch block
reruns reranking and substitutes the raw joined search-result content
for the compressed blob (lines 448-457); a rejection of the rerun
rerank propagates. -/
def executeSharedProcessingPipeline (c : Collaborators) (ctx : PipelineContext)
    (searchResults : List SearchResult) (strategyName : SearchStrategy) :
    Except JSError Answer × List Event :=
  if strategyName = .FastVectorSearch then
    let gradedDocuments := searchResults.map (fun r => PipelineDoc.graded (fastGradedDoc r))
    let contextText := joinContents searchResults
    (.ok (.generated contextText ctx.query),
      [.buildSourcesCall gradedDocuments, .generateCall contextText])
  else
    let evs0 : List Event := [.rerankCall, .compressCall]
    match c.rerank ctx.query searchResults, c.compress searchResults ctx.query with
    | .ok rerankedResults, .ok compressedContent =>
      sharedTail c ctx rerankedResults compressedContent evs0
    | _, _ =>
      match c.rerank ctx.query searchResults with
      | .error e => (.error e, evs0 ++ [.rerankCall])
      | .ok rerankedResults =>
        sharedTail c ctx rerankedResults (joinContents searchResults)
          (evs0 ++ [.rerankCall])

/-!  ## The four strategy pipelines (source lines 264-393) -/

/-- `executeFastVectorPipeline`, `executeStandardPipeline` and
`executeExpandedPipeline` (source lines 264-337) are identical modulo
the strategy tag: build the variants, fan out retrieval, return a
fallback keyed on the raw query when nothing was retrieved, otherwise
run the shared processing pipeline.  Their catch blocks only log and
rethrow. -/
def executeSearchPipeline (c : Collaborators) (ctx : PipelineContext)
    (strategy : SearchStrategy) : Except JSError Answer × List Event :=
  let searchQueries := buildQueriesForStrategy ctx strategy
  let sr := performVectorSearch c searchQueries ctx
  if sr.1.length = 0 then
    (.ok (.fallback ctx.query), sr.2 ++ [.fallbackCall ctx.query])
  else
    let tail := executeSharedProcessingPipeline c ctx sr.1 strategy
    (tail.1, sr.2 ++ tail.2)

def executeFastVectorPipeline (c : Collaborators) (ctx : PipelineContext) :
    Except JSError Answer × List Event :=
  executeSearchPipeline c ctx .FastVectorSearch

def executeStandardPipeline (c : Collaborators) (ctx : PipelineContext) :
    Except JSError Answer × List Event :=
  executeSearchPipeline c ctx .StandardVectorSearch

def executeExpandedPipeline (c : Collaborators) (ctx : PipelineContext) :
    Except JSError Answer × List Event :=
  executeSearchPipeline c ctx .ExpandedSearch

/-- The fixed no-result fallback text of the page pipeline
(source lines 349-351). -/
def pageNotFoundMessage : String :=
  "I couldn't find any content on the requested page. The page might not exist or may not have been indexed yet."

/-- `executePageQueryPipeline` (source lines 339-393): retrieval with
exactly the raw query as the single variant; a fixed not-found
fallback when nothing was retrieved; otherwise sources are synthesized
directly from the raw results and the answer is generated from the raw
joined context. -/
def executePageQueryPipeline (c : Collaborators) (ctx : PipelineContext) :
    Except JSError Answer × List Event :=
  let searchQueries := [ctx.query]
  let sr := performVectorSearch c searchQueries ctx
  if sr.1.length = 0 then
    (.ok (.fallback pageNotFoundMessage), sr.2 ++ [.fallbackCall pageNotFoundMessage])
  else
    let docs := sr.1.map (fun r => PipelineDoc.graded (pageGradedDoc r))
    let contextText := joinContents sr.1
    (.ok (.generated contextText ctx.query),
      sr.2 ++ [.buildSourcesCall docs, .generateCall contextText])

/-- `executeStrategyPipeline` (source lines 246-259); the TypeScript
`default` branch (standard pipeline) is unreachable over the closed
strategy type. -/
def executeStrategyPipeline (c : Collaborators) (strategy : SearchStrategy)
    (ctx : PipelineContext) : Except JSError Answer × List Event :=
  match strategy with
  | .FastVectorSearch => executeFastVectorPipeline c ctx
  | .StandardVectorSearch => executeStandardPipeline c ctx
  | .ExpandedSearch => executeExpandedPipeline c ctx
  | .PageQueryStrategy => executePageQueryPipeline c ctx

/-!  ## `processQuery` (source lines 111-241) -/

/-- Either a value thrown across the `processQuery` boundary or a
streaming answer returned to the caller. -/
inductive ProcessOutcome
  | thrown (e : JSError)
  | answer (a : Answer)
  deriving DecidableEq

/-- The fixed timeout fallback text (source lines 228-230). -/
def timeoutFallbackMessage : String :=
  "The request took too long to process. Please try a simpler query or try again later."

/-- Modelled from the spec (§7): the error thrown by
`RAGError.create('serviceDisposed', ...)` on a disposed orchestrator;
the `RAGError` module is not among the verified sources.  Only its
identity matters to the claims, never its fields. -/
def disposedError : JSError :=
  ⟨"RAGError", "serviceDisposed: RAGOrchestratorService"⟩

/-- The abort test of the catch handler (source line 220):
`error.name === 'AbortError' || error.message.includes('aborted') ||
abortSignal?.aborted`. -/
def isAbortClassified (e : JSError) (abortSignalAborted : Bool) : Bool :=
  e.name == "AbortError" || strIncludes e.message "aborted" || abortSignalAborted

/-- The catch handler of `processQuery` (source lines 206-236):
abort-classified errors are rethrown unchanged; `TimeoutError` degrades
to the fixed took-too-long fallback; everything else degrades to a
fallback keyed on the raw query. -/
def classifyPipelineError (e : JSError) (abortSignalAborted : Bool)
    (query : String) : ProcessOutcome :=
  if isAbortClassified e abortSignalAborted then .thrown e
  else if e.name == "TimeoutError" then
    .answer (.fallback timeoutFallbackMessage)
  else .answer (.fallback query)

/-- `processQuery` (source lines 111-241).  `RAGError.withErrorHandling`
(line 128) is not among the verified sources; modelled from the spec
(§4.1, §7) as a pass-through wrapper: only disposed and
caller-cancellation errors cross the boundary, which the wrapped body
already guarantees.  Correlation id, logging, metadata tracking and
timing have no semantic effect on the claims and are elided.  The
page-validation guard (lines 157-176) runs before the strategy
dispatch; its two nested conditions are folded into one conjunction
over the same pure validation result. -/
def processQuery (c : Collaborators) (isDisposed : Bool)
    (query : String) (dataroomId : String)
    (indexedDocuments : List AccessibleDocument)
    (strategy : SearchStrategy)
    (queryExtraction : Option QueryExtraction)
    (abortSignalAborted : Bool) : ProcessOutcome × List Event :=
  if isDisposed then (.thrown disposedError, [])
  else
    let pages := (queryExtraction.map (fun qe => qe.pageNumbers)).getD []
    let v := validatePagesAgainstDocuments pages indexedDocuments
    if decide (pages.length > 0) && (!v.isValid && jsTruthyStr v.errorMessage) then
      let msg := v.errorMessage.getD ""
      (.answer (.fallback msg), [.fallbackCall msg])
    else
      let ctx : PipelineContext := ⟨query, dataroomId, indexedDocuments, queryExtraction⟩
      match executeStrategyPipeline c strategy ctx with
      | (.ok a, evs) => (.answer a, evs)
      | (.error e, evs) => (classifyPipelineError e abortSignalAborted query, evs)

/-!  ## Cancellation-signal composition (source lines 154-155)

`const timeoutSignal = AbortSignal.timeout(timeoutMs);`
`const pipelineSignal = abortSignal || timeoutSignal;`

An `AbortSignal` is characterized here by whether it has fired in a
given scenario; a scenario records whether the caller cancelled and
whether the `timeoutMs` timer elapsed. -/

structure SignalState where
  callerAborted : Bool
  timerFired : Bool
  deriving DecidableEq

/-- The internally derived `AbortSignal.timeout(timeoutMs)` signal. -/
def timeoutSignalAborted (s : SignalState) : Bool := s.timerFired

/-- The caller-supplied abort signal. -/
def callerSignalAborted (s : SignalState) : Bool := s.callerAborted

/-- `abortSignal || timeoutSignal` (source line 155): JavaScript `||`
on an object operand selects the caller's signal whenever one is
supplied (objects are truthy) and falls back to the timeout signal only
when none is. -/
def pipelineSignalAborted (callerSupplied : Bool) (s : SignalState) : Bool :=
  if callerSupplied then callerSignalAborted s else timeoutSignalAborted s

/-- The composition the spec describes (§4.1 step 3): the effective
signal fires when the caller cancels or the timer fires, whichever
comes first.  Stated from the spec's words, to be compared with
`pipelineSignalAborted`. -/
def specComposedSignalAborted (callerSupplied : Bool) (s : SignalState) : Bool :=
  (callerSupplied && callerSignalAborted s) || timeoutSignalAborted s

/-!  ## Concrete fixtures used by witnesses and counterexamples -/

/-- A chunk returned twice across variants with different payloads:
first occurrence `c3first` (variant 1) and shadowed duplicate
`c3dup` (variant 2) share `chunkId` `"c1"`. -/
def c3first : SearchResult := ⟨"d1", "c1", "first payload", some 1⟩

def c3dup : SearchResult := ⟨"d2", "c1", "second payload", some 2⟩

def c3other : SearchResult := ⟨"d1", "c2", "other", none⟩

def c3collab : Collaborators :=
  ⟨fun q _ _ _ => if q == "v1" then .ok [c3first, c3other] else .ok [c3dup],
   fun _ rs => .ok rs, fun _ _ => .ok "", fun _ _ => .ok []⟩

def c3ctx : PipelineContext := ⟨"q", "dr", [], none⟩

/-- A context carrying 19 distinct rewritten queries plus a required
hypothetical answer: the expanded pipeline then issues 21 variants. -/
def c4rewriting : QueryRewriting :=
  ⟨[some "r1", some "r2", some "r3", some "r4", some "r5", some "r6", some "r7",
    some "r8", some "r9", some "r10", some "r11", some "r12", some "r13",
    some "r14", some "r15", some "r16", some "r17", some "r18", some "r19"],
   some "h0", true⟩

def c4ctx : PipelineContext :=
  ⟨"q0", "dr", [], some ⟨[], [], some c4rewriting⟩⟩

/-- A collaborator whose vector search always returns no chunks, and a
context whose query text does not occur in the fixed page-not-found
message. -/
def c7collab : Collaborators :=
  ⟨fun _ _ _ _ => .ok [], fun _ rs => .ok rs, fun _ _ => .ok "", fun _ _ => .ok []⟩

def c7ctx : PipelineContext :=
  ⟨"zebra pricing", "dr", [⟨"d1", some "Doc", some 5⟩], none⟩

/-- A reversing reranker, a failing compressor, and two chunks with
distinct contents: retrieval order is `alpha, beta`, reranked order is
`beta, alpha`. -/
def c5resA : SearchResult := ⟨"d1", "cA", "alpha", some 1⟩

def c5resB : SearchResult := ⟨"d1", "cB", "beta", some 1⟩

def c5collab : Collaborators :=
  ⟨fun _ _ _ _ => .ok [c5resA, c5resB],
   fun _ rs => .ok rs.reverse,
   fun _ _ => .error ⟨"Error", "compression failed"⟩,
   fun _ _ => .ok []⟩

def c5ctx : PipelineContext := ⟨"q5", "dr", [], none⟩

/-- An identity reranker, a succeeding compressor and a failing grader
over a single retrieved chunk. -/
def c6res : SearchResult := ⟨"d2", "c9", "gamma", none⟩

def c6collab : Collaborators :=
  ⟨fun _ _ _ _ => .ok [c6res],
   fun _ rs => .ok rs,
   fun _ _ => .ok "compressed",
   fun _ _ => .error ⟨"Error", "grading failed"⟩⟩

def c6ctx : PipelineContext := ⟨"q6", "dr", [], none⟩

/-- A context with a non-empty document allow-list and no explicit page
numbers. -/
def c8ctx : PipelineContext := ⟨"q8", "dr8", [⟨"d8", some "Doc8", some 3⟩], none⟩

def c8collab : Collaborators :=
  ⟨fun _ _ _ _ => .ok [], fun _ rs => .ok rs, fun _ _ => .ok "", fun _ _ => .ok []⟩

/-- A context with an explicit page number, to witness the amended C8. -/
def c8wctx : PipelineContext :=
  ⟨"q8w", "dr8", [⟨"d8", some "Doc8", some 9⟩], some ⟨[2], [], none⟩⟩

/-- The claim-C2 scenario: one 10-page document and an extraction
asking for page 15. -/
def c2doc : AccessibleDocument := ⟨"doc1", some "Contract", some 10⟩

def c2qe : QueryExtraction := ⟨[15], [], none⟩

def c2collab : Collaborators :=
  ⟨fun _ _ _ _ => .ok [], fun _ rs => .ok rs, fun _ _ => .ok "", fun _ _ => .ok []⟩

/-- A collaborator whose reranker rejects with an `AbortError`, making
the whole standard pipeline throw. -/
def c1res : SearchResult := ⟨"d1", "c1", "delta", none⟩

def c1abortCollab : Collaborators :=
  ⟨fun _ _ _ _ => .ok [c1res],
   fun _ _ => .error ⟨"AbortError", "rerank aborted"⟩,
   fun _ _ => .ok "cc",
   fun _ _ => .ok []⟩

/-- A document whose page count is simply absent from its metadata, and
an extraction asking for page 1 — a page that could well exist. -/
def c10doc : AccessibleDocument := ⟨"dX", some "NoMeta", none⟩

def c10qe : QueryExtraction := ⟨[1], [], none⟩

def c10collab : Collaborators :=
  ⟨fun _ _ _ _ => .ok [], fun _ rs => .ok rs, fun _ _ => .ok "", fun _ _ => .ok []⟩

/-!  ## Lemmas about first-occurrence deduplication -/

theorem dedupBy_sublist {α β : Type} [DecidableEq β] (key : α → β) :
    ∀ (l : List α) (seen : List β), List.Sublist (dedupBy key l seen) l := by
  intro l
  induction l with
  | nil => intro seen; simp [dedupBy]
  | cons x xs ih =>
    intro seen
    unfold dedupBy
    by_cases h : key x ∈ seen
    · rw [if_pos h]
      exact (ih seen).cons x
    · rw [if_neg h]
      exact (ih (key x :: seen)).cons₂ x

theorem dedupBy_length_le {α β : Type} [DecidableEq β] (key : α → β)
    (l : List α) (seen : List β) : (dedupBy key l seen).length ≤ l.length :=
  (dedupBy_sublist key l seen).length_le

theorem dedupBy_key_not_mem_seen {α β : Type} [DecidableEq β] (key : α → β) :
    ∀ (l : List α) (seen : List β) (x : α), x ∈ dedupBy key l seen → key x ∉ seen := by
  intro l
  induction l with
  | nil => intro seen x hx; simp [dedupBy] at hx
  | cons a as ih =>
    intro seen x hx
    unfold dedupBy at hx
    by_cases h : key a ∈ seen
    · rw [if_pos h] at hx
      exact ih seen x hx
    · rw [if_neg h] at hx
      rcases List.mem_cons.mp hx with rfl | hx'
      · exact h
      · intro hmem
        exact ih _ x hx' (List.mem_cons_of_mem _ hmem)

theorem dedupBy_nodup_keys {α β : Type} [DecidableEq β] (key : α → β) :
    ∀ (l : List α) (seen : List β), ((dedupBy key l seen).map key).Nodup := by
  intro l
  induction l with
  | nil => intro seen; simp [dedupBy]
  | cons a as ih =>
    intro seen
    unfold dedupBy
    by_cases h : key a ∈ seen
    · rw [if_pos h]
      exact ih seen
    · rw [if_neg h]
      simp only [List.map_cons]
      refine List.nodup_cons.mpr ⟨?_, ih _⟩
      intro hmem
      rcases List.mem_map.mp hmem with ⟨x, hx, hkey⟩
      exact dedupBy_key_not_mem_seen key as _ x hx
        (by rw [hkey]; exact List.mem_cons_self _ _)

theorem dedupBy_first_occurrence {α β : Type} [DecidableEq β] (key : α → β) :
    ∀ (l : List α) (seen : List β) (x : α), x ∈ dedupBy key l seen →
      l.find? (fun y => decide (key y = key x)) = some x := by
  intro l
  induction l with
  | nil => intro seen x hx; simp [dedupBy] at hx
  | cons a as ih =>
    intro seen x hx
    unfold dedupBy at hx
    by_cases h : key a ∈ seen
    · rw [if_pos h] at hx
      have hne : key a ≠ key x := by
        intro heq
        exact dedupBy_key_not_mem_seen key as seen x hx (heq ▸ h)
      rw [List.find?_cons_of_neg _ (by simpa using hne)]
      exact ih seen x hx
    · rw [if_neg h] at hx
      rcases List.mem_cons.mp hx with rfl | hx'
      · rw [List.find?_cons_of_pos _ (by simp)]
      · have hnotin := dedupBy_key_not_mem_seen key as _ x hx'
        have hne : key a ≠ key x := by
          intro heq
          exact hnotin (heq ▸ List.mem_cons_self _ _)
        rw [List.find?_cons_of_neg _ (by simpa using hne)]
        exact ih _ x hx'

/-- C3: for every list of per-variant search result lists, the merged
result of the retrieval fan-in (a) carries pairwise-distinct chunkIds,
(b) retains, for each of its entries, exactly the first occurrence of
that chunkId in variant-issue (concatenation) order, and (c) preserves
the concatenation order of the entries it keeps. -/
theorem c3_merge_dedup_first_occurrence (c : Collaborators)
    (searchQueries : List String) (ctx : PipelineContext) :
    ((performVectorSearch c searchQueries ctx).1.map (fun r => r.chunkId)).Nodup ∧
    (∀ r ∈ (performVectorSearch c searchQueries ctx).1,
      ((searchQueries.map (searchVariant c ctx)).flatten).find?
        (fun y => decide (y.chunkId = r.chunkId)) = some r) ∧
    List.Sublist (performVectorSearch c searchQueries ctx).1
      ((searchQueries.map (searchVariant c ctx)).flatten) := by
  have hunf : (performVectorSearch c searchQueries ctx).1 =
      dedupBy (fun r : SearchResult => r.chunkId)
        ((searchQueries.map (searchVariant c ctx)).flatten) [] := rfl
  rw [hunf]
  refine ⟨?_, ?_, ?_⟩
  · exact dedupBy_nodup_keys (fun r : SearchResult => r.chunkId) _ []
  · intro r hr
    exact dedupBy_first_occurrence (fun r : SearchResult => r.chunkId) _ [] r hr
  · exact dedupBy_sublist (fun r : SearchResult => r.chunkId) _ []

/-- Witness for C3 at a concrete two-variant fan-in with a cross-variant
duplicate: the merged list keeps the first occurrence. -/
theorem c3_witness :
    c3first ∈ (performVectorSearch c3collab ["v1", "v2"] c3ctx).1 ∧
    ((["v1", "v2"].map (searchVariant c3collab c3ctx)).flatten).find?
      (fun y => decide (y.chunkId = c3first.chunkId)) = some c3first :=
  ⟨by decide,
   (c3_merge_dedup_first_occurrence c3collab ["v1", "v2"] c3ctx).2.1 c3first (by decide)⟩

/-!  ## Variant-count bounds (C4) -/

theorem dedup_trim_filter_length_le (l : List String) :
    (dedupBy id ((l.map jsTrim).filter (fun q => !(q == ""))) []).length ≤ l.length :=
  calc (dedupBy id ((l.map jsTrim).filter (fun q => !(q == ""))) []).length
      ≤ ((l.map jsTrim).filter (fun q => !(q == ""))).length :=
        dedupBy_length_le _ _ _
    _ ≤ (l.map jsTrim).length := List.length_filter_le _ _
    _ = l.length := List.length_map _ _

theorem hydeToAppend_length_le (ctx : PipelineContext) (strategy : SearchStrategy) :
    (hydeToAppend ctx strategy).length ≤ 1 := by
  unfold hydeToAppend
  repeat' split
  all_goals simp

theorem hydeToAppend_fast (ctx : PipelineContext) :
    hydeToAppend ctx .FastVectorSearch = [] := by
  cases h : ctx.queryExtraction <;> simp [hydeToAppend]

theorem hydeToAppend_standard (ctx : PipelineContext) :
    hydeToAppend ctx .StandardVectorSearch = [] := by
  cases h : ctx.queryExtraction <;> simp [hydeToAppend]

theorem buildQueries_length_le (ctx : PipelineContext) (strategy : SearchStrategy) :
    (buildQueriesForStrategy ctx strategy).length ≤
      getMaxQueriesForStrategy strategy + (hydeToAppend ctx strategy).length := by
  have hmax : 1 ≤ getMaxQueriesForStrategy strategy := by
    cases strategy <;> decide
  have hb : (if (rewrittenOf ctx).length ≠ 0 then
        [ctx.query] ++
          ((rewrittenOf ctx).take (getMaxQueriesForStrategy strategy - 1)).filterMap id
      else [ctx.query]).length ≤ getMaxQueriesForStrategy strategy := by
    split
    · have h2 : (((rewrittenOf ctx).take
          (getMaxQueriesForStrategy strategy - 1)).filterMap id).length ≤
          getMaxQueriesForStrategy strategy - 1 := by
        refine le_trans (List.length_filterMap_le _ _) ?_
        simp [List.length_take]
      simp only [List.length_append, List.length_cons, List.length_nil]
      omega
    · simpa using hmax
  have h0 : (buildQueriesForStrategy ctx strategy).length ≤
      ((if (rewrittenOf ctx).length ≠ 0 then
          [ctx.query] ++
            ((rewrittenOf ctx).take (getMaxQueriesForStrategy strategy - 1)).filterMap id
        else [ctx.query]) ++ hydeToAppend ctx strategy).length :=
    dedup_trim_filter_length_le _
  rw [List.length_append] at h0
  exact le_trans h0 (Nat.add_le_add_right hb _)

/-- C4 (amended): the variant list is bounded by 3 for
`FastVectorSearch`, 15 for `StandardVectorSearch` and 21 for
`ExpandedSearch` (the hypothetical-answer variant is appended after the
20-variant budget was already filled and can exceed it by one), and the
page-query pipeline always issues exactly one search variant, the raw
query. -/
theorem c4_variant_count_bounds (ctx : PipelineContext) (c : Collaborators) :
    (buildQueriesForStrategy ctx .FastVectorSearch).length ≤ 3 ∧
    (buildQueriesForStrategy ctx .StandardVectorSearch).length ≤ 15 ∧
    (buildQueriesForStrategy ctx .ExpandedSearch).length ≤ 21 ∧
    searchCallQueries (executePageQueryPipeline c ctx).2 = [ctx.query] := by
  refine ⟨?_, ?_, ?_, ?_⟩
  · have h := buildQueries_length_le ctx .FastVectorSearch
    rw [hydeToAppend_fast] at h
    simpa [getMaxQueriesForStrategy, MAX_FAST_QUERIES] using h
  · have h := buildQueries_length_le ctx .StandardVectorSearch
    rw [hydeToAppend_standard] at h
    simpa [getMaxQueriesForStrategy, MAX_STANDARD_QUERIES] using h
  · have h := buildQueries_length_le ctx .ExpandedSearch
    have hh := hydeToAppend_length_le ctx .ExpandedSearch
    simp only [getMaxQueriesForStrategy, MAX_EXPANDED_QUERIES] at h
    omega
  · simp only [executePageQueryPipeline, performVectorSearch]
    split <;> simp [searchCallQueries, List.filterMap_append]

/-- C4 counterexample: with 19 rewritten queries and a required HyDE
answer, `ExpandedSearch` builds 21 query variants, exceeding the
claimed bound of 20. -/
theorem c4_counterexample :
    (buildQueriesForStrategy c4ctx .ExpandedSearch).length = 21 ∧
    ¬ (buildQueriesForStrategy c4ctx .ExpandedSearch).length ≤ 20 := by
  constructor
  · decide
  · decide

/-!  ## Zero-result retrieval (C7) -/

theorem searchVariant_flatten_nil (c : Collaborators) (ctx : PipelineContext)
    (hempty : ∀ q, searchVariant c ctx q = []) (qs : List String) :
    (qs.map (searchVariant c ctx)).flatten = [] := by
  induction qs with
  | nil => rfl
  | cons q qs ih => simp [hempty, ih]

theorem countRefinement_searchMap (ctx : PipelineContext) (qs : List String) :
    countRefinementCalls (qs.map
      (fun q => Event.searchCall q ctx.dataroomId (docIdsOf ctx) (passedFilter ctx))) = 0 := by
  induction qs with
  | nil => rfl
  | cons q qs ih =>
    simp only [countRefinementCalls, List.map_cons, List.filter_cons,
      isRefinementEvent] at ih ⊢
    exact ih

/-- With empty retrieval, the shared search pipelines (Fast, Standard,
Expanded) return the fallback keyed on the raw query and their trace is
the search calls followed by the fallback call. -/
theorem executeSearchPipeline_empty (c : Collaborators) (ctx : PipelineContext)
    (strategy : SearchStrategy) (hempty : ∀ q, searchVariant c ctx q = []) :
    executeSearchPipeline c ctx strategy =
      (.ok (.fallback ctx.query),
       (buildQueriesForStrategy ctx strategy).map
         (fun q => Event.searchCall q ctx.dataroomId (docIdsOf ctx) (passedFilter ctx)) ++
         [.fallbackCall ctx.query]) := by
  simp only [executeSearchPipeline, performVectorSearch,
    searchVariant_flatten_nil c ctx hempty, removeDuplicateResults, dedupBy,
    List.length_nil, reduceIte]

/-- With empty retrieval, the page pipeline returns the fixed not-found
fallback. -/
theorem executePageQueryPipeline_empty (c : Collaborators) (ctx : PipelineContext)
    (hempty : ∀ q, searchVariant c ctx q = []) :
    executePageQueryPipeline c ctx =
      (.ok (.fallback pageNotFoundMessage),
       [.searchCall ctx.query ctx.dataroomId (docIdsOf ctx) (passedFilter ctx),
        .fallbackCall pageNotFoundMessage]) := by
  simp only [executePageQueryPipeline, performVectorSearch, List.map_cons,
    List.map_nil, List.flatten, hempty, List.append_nil, removeDuplicateResults,
    dedupBy, List.length_nil, reduceIte]
  rfl

/-- C7 (amended): when every variant's retrieval comes back empty, every
strategy skips refinement entirely (zero rerank/compress/grade
invocations) and returns a fallback; for Fast, Standard and Expanded
the fallback is keyed on the raw query text, while `PageQueryStrategy`
returns the fixed page-not-found message, which does not reference the
query. -/
theorem c7_searchPipeline_empty_aux (c : Collaborators) (ctx : PipelineContext)
    (strategy : SearchStrategy) (hempty : ∀ q, searchVariant c ctx q = []) :
    (executeSearchPipeline c ctx strategy).1 = .ok (.fallback ctx.query) ∧
    countRefinementCalls (executeSearchPipeline c ctx strategy).2 = 0 := by
  rw [executeSearchPipeline_empty c ctx strategy hempty]
  refine ⟨rfl, ?_⟩
  have h1 := countRefinement_searchMap ctx (buildQueriesForStrategy ctx strategy)
  simp only [countRefinementCalls, List.filter_append] at h1 ⊢
  simp [h1, isRefinementEvent]

theorem c7_empty_retrieval_fallback (c : Collaborators) (ctx : PipelineContext)
    (strategy : SearchStrategy) (hempty : ∀ q, searchVariant c ctx q = []) :
    (executeStrategyPipeline c strategy ctx).1 =
      .ok (.fallback (if strategy = .PageQueryStrategy then pageNotFoundMessage
        else ctx.query)) ∧
    countRefinementCalls (executeStrategyPipeline c strategy ctx).2 = 0 := by
  cases strategy
  case PageQueryStrategy =>
    rw [show executeStrategyPipeline c .PageQueryStrategy ctx =
      executePageQueryPipeline c ctx from rfl]
    rw [executePageQueryPipeline_empty c ctx hempty]
    exact ⟨rfl, rfl⟩
  case FastVectorSearch =>
    simpa [executeStrategyPipeline, executeFastVectorPipeline]
      using c7_searchPipeline_empty_aux c ctx .FastVectorSearch hempty
  case StandardVectorSearch =>
    simpa [executeStrategyPipeline, executeStandardPipeline]
      using c7_searchPipeline_empty_aux c ctx .StandardVectorSearch hempty
  case ExpandedSearch =>
    simpa [executeStrategyPipeline, executeExpandedPipeline]
      using c7_searchPipeline_empty_aux c ctx .ExpandedSearch hempty

/-- C7 counterexample: under zero-result retrieval the page-query
pipeline's fallback is the fixed not-found message, which neither
equals nor contains the raw query text — refuting the claim that every
strategy's zero-result fallback references the raw query. -/
theorem c7_counterexample :
    (executePageQueryPipeline c7collab c7ctx).1 = .ok (.fallback pageNotFoundMessage) ∧
    pageNotFoundMessage ≠ c7ctx.query ∧
    strIncludes pageNotFoundMessage c7ctx.query = false := by
  refine ⟨rfl, by decide, by decide⟩

/-- Witness for C7 (amended) at the concrete empty-search collaborator
and the standard strategy. -/
theorem c7_witness :
    (∀ q, searchVariant c7collab c7ctx q = []) ∧
    (executeStrategyPipeline c7collab .StandardVectorSearch c7ctx).1 =
      .ok (.fallback (if SearchStrategy.StandardVectorSearch = .PageQueryStrategy
        then pageNotFoundMessage else c7ctx.query)) ∧
    countRefinementCalls
      (executeStrategyPipeline c7collab .StandardVectorSearch c7ctx).2 = 0 :=
  ⟨fun _ => rfl,
   (c7_empty_retrieval_fallback c7collab c7ctx .StandardVectorSearch (fun _ => rfl)).1,
   (c7_empty_retrieval_fallback c7collab c7ctx .StandardVectorSearch (fun _ => rfl)).2⟩

/-!  ## Compression failure (C5) and grading failure (C6) -/

/-- On the non-fast path, when compression rejects and the rerun rerank
succeeds, the shared pipeline continues with the reranked results but
with the raw joined search-result content as context text. -/
theorem sharedPipeline_compress_fail (c : Collaborators) (ctx : PipelineContext)
    (searchResults : List SearchResult) (strategy : SearchStrategy)
    (hs : strategy ≠ .FastVectorSearch)
    (e : JSError) (hc : c.compress searchResults ctx.query = .error e)
    (rr : List SearchResult) (hr : c.rerank ctx.query searchResults = .ok rr) :
    executeSharedProcessingPipeline c ctx searchResults strategy =
      sharedTail c ctx rr (joinContents searchResults)
        [.rerankCall, .compressCall, .rerankCall] := by
  unfold executeSharedProcessingPipeline
  rw [if_neg hs, hr, hc]
  rfl

/-- On the non-fast path, when both rerank and compress succeed, the
shared pipeline continues with the reranked results and the compressed
content. -/
theorem sharedPipeline_ok_ok (c : Collaborators) (ctx : PipelineContext)
    (searchResults : List SearchResult) (strategy : SearchStrategy)
    (hs : strategy ≠ .FastVectorSearch)
    (rr : List SearchResult) (hr : c.rerank ctx.query searchResults = .ok rr)
    (cc : String) (hc : c.compress searchResults ctx.query = .ok cc) :
    executeSharedProcessingPipeline c ctx searchResults strategy =
      sharedTail c ctx rr cc [.rerankCall, .compressCall] := by
  unfold executeSharedProcessingPipeline
  rw [if_neg hs, hr, hc]

/-- C5 (amended): in the Standard and Expanded pipelines, when the
concurrent rerank-and-compress step fails on the compression side (and
the rerun rerank succeeds), the run still completes and the context
text passed to answer generation equals the blank-line concatenation of
the ORIGINAL search-result contents in retrieval order — not of the
reranked contents in reranked order; reranking is recomputed only for
grading and source building. -/
theorem c5_compression_failure_context (c : Collaborators) (ctx : PipelineContext)
    (searchResults : List SearchResult) (strategy : SearchStrategy)
    (hs : strategy ≠ .FastVectorSearch)
    (e : JSError) (hc : c.compress searchResults ctx.query = .error e)
    (rr : List SearchResult) (hr : c.rerank ctx.query searchResults = .ok rr) :
    (executeSharedProcessingPipeline c ctx searchResults strategy).1 =
      .ok (.generated (joinContents searchResults) ctx.query) ∧
    generateCallContexts
      (executeSharedProcessingPipeline c ctx searchResults strategy).2 =
      [joinContents searchResults] := by
  rw [sharedPipeline_compress_fail c ctx searchResults strategy hs e hc rr hr]
  unfold sharedTail
  cases hg : c.grade ctx.query rr <;>
    simp [generateCallContexts, List.filterMap_append]

/-- C5 counterexample: with compression failing and a reranker that
reverses the two chunks, the context text handed to answer generation
is the retrieval-order concatenation, which differs from the
reranked-order concatenation the claim asserts. -/
theorem c5_counterexample :
    c5collab.rerank c5ctx.query [c5resA, c5resB] = .ok [c5resB, c5resA] ∧
    generateCallContexts
      (executeSharedProcessingPipeline c5collab c5ctx [c5resA, c5resB]
        .StandardVectorSearch).2 = [joinContents [c5resA, c5resB]] ∧
    joinContents [c5resA, c5resB] ≠ joinContents [c5resB, c5resA] := by
  refine ⟨rfl, rfl, by decide⟩

/-- Witness for C5 (amended) at the concrete failing compressor. -/
theorem c5_witness :
    (SearchStrategy.StandardVectorSearch ≠ .FastVectorSearch) ∧
    c5collab.compress [c5resA, c5resB] c5ctx.query =
      .error ⟨"Error", "compression failed"⟩ ∧
    (executeSharedProcessingPipeline c5collab c5ctx [c5resA, c5resB]
      .StandardVectorSearch).1 =
      .ok (.generated (joinContents [c5resA, c5resB]) c5ctx.query) :=
  ⟨by decide, rfl,
   (c5_compression_failure_context c5collab c5ctx [c5resA, c5resB]
     .StandardVectorSearch (by decide) ⟨"Error", "compression failed"⟩ rfl
     [c5resB, c5resA] rfl).1⟩

/-- C6 (amended): in the Standard and Expanded pipelines, when the
grading collaborator throws, the run still completes and the document
set passed to source building is the full reranked set passed through
unchanged — the raw reranked search results, which carry no
`isRelevant` property at all (rather than `isRelevant = true`). -/
theorem c6_grading_failure_raw_passthrough (c : Collaborators)
    (ctx : PipelineContext) (searchResults : List SearchResult)
    (strategy : SearchStrategy) (hs : strategy ≠ .FastVectorSearch)
    (rr : List SearchResult) (hr : c.rerank ctx.query searchResults = .ok rr)
    (e : JSError) (hg : c.grade ctx.query rr = .error e) :
    (∃ a, (executeSharedProcessingPipeline c ctx searchResults strategy).1 = .ok a) ∧
    buildSourcesDocsCalls
      (executeSharedProcessingPipeline c ctx searchResults strategy).2 =
      [rr.map PipelineDoc.raw] ∧
    ∀ d ∈ rr.map PipelineDoc.raw, d.isRelevantField = none := by
  have hmem : ∀ d ∈ rr.map PipelineDoc.raw, d.isRelevantField = none := by
    intro d hd
    rcases List.mem_map.mp hd with ⟨r, _, rfl⟩
    rfl
  cases hcc : c.compress searchResults ctx.query with
  | ok cc =>
    rw [sharedPipeline_ok_ok c ctx searchResults strategy hs rr hr cc hcc]
    unfold sharedTail
    rw [hg]
    exact ⟨⟨_, rfl⟩, by simp [buildSourcesDocsCalls, List.filterMap_append], hmem⟩
  | error ec =>
    rw [sharedPipeline_compress_fail c ctx searchResults strategy hs ec hcc rr hr]
    unfold sharedTail
    rw [hg]
    exact ⟨⟨_, rfl⟩, by simp [buildSourcesDocsCalls, List.filterMap_append], hmem⟩

/-- C6 counterexample: when grading fails, the element handed to source
building is the raw reranked search result, whose `isRelevant` property
is absent (`none`), not `true` — refuting the claim that every element
has `GradedDocument.isRelevant = true`. -/
theorem c6_counterexample :
    buildSourcesDocsCalls
      (executeSharedProcessingPipeline c6collab c6ctx [c6res]
        .StandardVectorSearch).2 = [[PipelineDoc.raw c6res]] ∧
    (PipelineDoc.raw c6res).isRelevantField ≠ some true ∧
    ¬ (∀ d ∈ [PipelineDoc.raw c6res], d.isRelevantField = some true) := by
  refine ⟨rfl, by decide, ?_⟩
  intro h
  have hfalse := h (PipelineDoc.raw c6res) (List.mem_singleton.mpr rfl)
  simp [PipelineDoc.isRelevantField] at hfalse

/-- Witness for C6 (amended) at the concrete failing grader. -/
theorem c6_witness :
    (SearchStrategy.StandardVectorSearch ≠ .FastVectorSearch) ∧
    c6collab.rerank c6ctx.query [c6res] = .ok [c6res] ∧
    c6collab.grade c6ctx.query [c6res] = .error ⟨"Error", "grading failed"⟩ ∧
    (∃ a, (executeSharedProcessingPipeline c6collab c6ctx [c6res]
      .StandardVectorSearch).1 = .ok a) :=
  ⟨by decide, rfl, rfl,
   (c6_grading_failure_raw_passthrough c6collab c6ctx [c6res]
     .StandardVectorSearch (by decide) [c6res] rfl
     ⟨"Error", "grading failed"⟩ rfl).1⟩

/-!  ## Metadata-filter scoping (C8) -/

theorem hasPageNumbers_eq (ctx : PipelineContext) :
    hasPageNumbers ctx = decide ((pageNumbersOf ctx).length > 0) := by
  cases h : ctx.queryExtraction <;> simp [hasPageNumbers, pageNumbersOf, h]

/-- When explicit page numbers exist, the filter handed to the search
collaborator is present and carries the dataroom id, the stringified
page ranges, and — when the allow-list is non-empty — the document
ids. -/
theorem passedFilter_of_hasPages (ctx : PipelineContext)
    (h : hasPageNumbers ctx = true) :
    passedFilter ctx = some
      ⟨(if ctx.indexedDocuments.length > 0 then some (docIdsOf ctx) else none),
       some ((pageNumbersOf ctx).map toString),
       some ctx.dataroomId⟩ := by
  have hlen : (pageNumbersOf ctx).length > 0 := by
    have he := hasPageNumbers_eq ctx
    rw [h] at he
    exact of_decide_eq_true he.symm
  by_cases hd : ctx.indexedDocuments.length > 0 <;>
    simp [passedFilter, buildMetadataFilter, MetadataFilter.keyCount, hlen, hd, h]

/-- C8 (amended): a metadata filter is handed to the search collaborator
exactly when the query extraction found explicit page numbers; when it
is, it scopes by dataroom id and page ranges, and by the allow-listed
document ids whenever the allow-list is non-empty; a query without
explicit page numbers is issued with NO metadata filter at all (the
dataroom id and the document allow-list still reach the collaborator as
dedicated arguments of every call), so it is never page-restricted. -/
theorem c8_filter_scoping (ctx : PipelineContext) :
    ((passedFilter ctx).isSome ↔ hasPageNumbers ctx = true) ∧
    (hasPageNumbers ctx = true →
      passedFilter ctx = some
        ⟨(if ctx.indexedDocuments.length > 0 then some (docIdsOf ctx) else none),
         some ((pageNumbersOf ctx).map toString),
         some ctx.dataroomId⟩) ∧
    (∀ (c : Collaborators) (qs : List String) (q dr : String)
        (ids : List String) (fil : Option MetadataFilter),
      Event.searchCall q dr ids fil ∈ (performVectorSearch c qs ctx).2 →
      dr = ctx.dataroomId ∧ ids = docIdsOf ctx ∧ fil = passedFilter ctx) := by
  refine ⟨?_, passedFilter_of_hasPages ctx, ?_⟩
  · cases hb : hasPageNumbers ctx
    · simp [passedFilter, hb]
    · simp [passedFilter_of_hasPages ctx hb]
  · intro c qs q dr ids fil hmem
    simp only [performVectorSearch] at hmem
    rcases List.mem_map.mp hmem with ⟨q', _, heq⟩
    rcases Event.searchCall.inj heq with ⟨_, h1, h2, h3⟩
    exact ⟨h1.symm, h2.symm, h3.symm⟩

/-- C8 counterexample: with no explicit page numbers, the retrieval call
is issued with no metadata filter at all (`none`), so no filter scoping
by dataroom id and document ids is passed — refuting the claim that
every retrieval call carries such a filter. -/
theorem c8_counterexample :
    (performVectorSearch c8collab ["q8"] c8ctx).2 =
      [.searchCall "q8" "dr8" ["d8"] none] ∧
    passedFilter c8ctx = none ∧
    hasPageNumbers c8ctx = false ∧
    ¬ ∃ f, passedFilter c8ctx = some f ∧ f.dataroomId = some c8ctx.dataroomId ∧
        f.documentIds = some (docIdsOf c8ctx) := by
  refine ⟨rfl, rfl, rfl, ?_⟩
  rintro ⟨f, hf, -, -⟩
  rw [show passedFilter c8ctx = none from rfl] at hf
  exact Option.noConfusion hf

/-- Witness for C8 (amended) at a concrete page-scoped context. -/
theorem c8_witness :
    hasPageNumbers c8wctx = true ∧
    passedFilter c8wctx = some ⟨some ["d8"], some ["2"], some "dr8"⟩ ∧
    Event.searchCall "q8w" "dr8" ["d8"] (some ⟨some ["d8"], some ["2"], some "dr8"⟩) ∈
      (performVectorSearch c8collab ["q8w"] c8wctx).2 ∧
    ("dr8" = c8wctx.dataroomId ∧ ["d8"] = docIdsOf c8wctx ∧
      (some ⟨some ["d8"], some ["2"], some "dr8"⟩ : Option MetadataFilter) =
        passedFilter c8wctx) :=
  ⟨rfl,
   (c8_filter_scoping c8wctx).2.1 rfl,
   by decide,
   (c8_filter_scoping c8wctx).2.2 c8collab ["q8w"] "q8w" "dr8" ["d8"]
     (some ⟨some ["d8"], some ["2"], some "dr8"⟩) (by decide)⟩

/-!  ## String-shape lemmas for the validation messages -/

theorem strData_append (a b : String) : (a ++ b).data = a.data ++ b.data := by
  cases a
  cases b
  rfl

theorem strAppend_assoc (a b c : String) : a ++ b ++ c = a ++ (b ++ c) := by
  apply String.ext
  simp only [strData_append, List.append_assoc]

theorem strAppend_empty (a : String) : a ++ "" = a := by
  apply String.ext
  simp only [strData_append]
  exact List.append_nil a.data

theorem strAppend_ne_empty_left (a b : String) (h : a ≠ "") : a ++ b ≠ "" := by
  intro he
  apply h
  apply String.ext
  have hd := congrArg String.data he
  rw [strData_append] at hd
  exact (List.append_eq_nil.mp hd).1

theorem mentions_end (pre sub : String) : mentions (pre ++ sub) sub :=
  ⟨pre, "", by rw [strAppend_empty]⟩

theorem mentions_append_right (msg ext sub : String) (h : mentions msg sub) :
    mentions (msg ++ ext) sub := by
  rcases h with ⟨a, b, rfl⟩
  exact ⟨a, b ++ ext, by rw [strAppend_assoc (a ++ sub) b ext]⟩

/-!  ## Page validation characterizations (C2, C10) -/

/-- When documents exist, page metadata exists and at least one
requested page is out of range, validation fails with a message that
names the offending page list and the maximum page count. -/
theorem validate_invalid_mentions (pages : List Int)
    (docs : List AccessibleDocument)
    (hdocs : docs ≠ []) (hmax : maxPagesInDocuments docs ≠ 0)
    (hinv : invalidPagesFor pages docs ≠ []) :
    ∃ msg, validatePagesAgainstDocuments pages docs = ⟨false, some msg⟩ ∧
      msg ≠ "" ∧
      mentions msg (String.intercalate ", "
        ((invalidPagesFor pages docs).map toString)) ∧
      mentions msg (toString (maxPagesInDocuments docs)) := by
  have hpages : pages ≠ [] := by
    intro h
    apply hinv
    rw [h]
    rfl
  have hpe : pages.isEmpty = false := by
    cases pages with
    | nil => exact absurd rfl hpages
    | cons a l => rfl
  have hde : docs.isEmpty = false := by
    cases docs with
    | nil => exact absurd rfl hdocs
    | cons a l => rfl
  have hie : (invalidPagesFor pages docs).isEmpty = false := by
    cases hil : invalidPagesFor pages docs with
    | nil => exact absurd hil hinv
    | cons a l => rfl
  simp only [validatePagesAgainstDocuments, hpe, hde, hie, Bool.false_eq_true,
    if_false, hmax, reduceIte]
  by_cases hone : (invalidPagesFor pages docs).length = 1
  · rw [if_pos hone]
    refine ⟨_, rfl, ?_, ?_, ?_⟩
    · repeat' apply strAppend_ne_empty_left
      decide
    · repeat first
        | exact mentions_end _ _
        | apply mentions_append_right
    · repeat first
        | exact mentions_end _ _
        | apply mentions_append_right
  · rw [if_neg hone]
    refine ⟨_, rfl, ?_, ?_, ?_⟩
    · repeat' apply strAppend_ne_empty_left
      decide
    · repeat first
        | exact mentions_end _ _
        | apply mentions_append_right
    · repeat first
        | exact mentions_end _ _
        | apply mentions_append_right

/-- Reduction of `processQuery` through the page-validation gate: when
the gate condition holds, the call returns the validation fallback and
its whole trace is that single fallback call. -/
theorem processQuery_invalid_pages (c : Collaborators)
    (query dataroomId : String) (docs : List AccessibleDocument)
    (strategy : SearchStrategy) (qe : QueryExtraction) (ab : Bool)
    (hcond : (decide (qe.pageNumbers.length > 0) &&
      (!(validatePagesAgainstDocuments qe.pageNumbers docs).isValid &&
        jsTruthyStr (validatePagesAgainstDocuments qe.pageNumbers docs).errorMessage)) =
        true) :
    processQuery c false query dataroomId docs strategy (some qe) ab =
      (.answer (.fallback
        ((validatePagesAgainstDocuments qe.pageNumbers docs).errorMessage.getD "")),
       [.fallbackCall
        ((validatePagesAgainstDocuments qe.pageNumbers docs).errorMessage.getD "")]) := by
  unfold processQuery
  rw [if_neg Bool.false_ne_true]
  simp only [Option.map_some', Option.getD_some]
  rw [if_pos hcond]

/-- C2: when (as in the claim's scenario) documents with page metadata
exist and the extraction carries at least one out-of-range page number,
`processQuery` returns the validation fallback whose message mentions
the offending page-number list and the maximum page count, and its
trace holds no `searchCall` — the search collaborator is never
invoked. -/
theorem c2_page_validation_gate (c : Collaborators)
    (query dataroomId : String) (docs : List AccessibleDocument)
    (strategy : SearchStrategy) (qe : QueryExtraction) (ab : Bool)
    (hdocs : docs ≠ []) (hmax : maxPagesInDocuments docs ≠ 0)
    (hinv : invalidPagesFor qe.pageNumbers docs ≠ []) :
    ∃ msg, processQuery c false query dataroomId docs strategy (some qe) ab =
        (.answer (.fallback msg), [.fallbackCall msg]) ∧
      mentions msg (String.intercalate ", "
        ((invalidPagesFor qe.pageNumbers docs).map toString)) ∧
      mentions msg (toString (maxPagesInDocuments docs)) ∧
      searchCallQueries [Event.fallbackCall msg] = [] := by
  obtain ⟨msg, hv, hne, hm1, hm2⟩ :=
    validate_invalid_mentions qe.pageNumbers docs hdocs hmax hinv
  have hpages : qe.pageNumbers ≠ [] := by
    intro h
    apply hinv
    rw [h]
    rfl
  have hcond : (decide (qe.pageNumbers.length > 0) &&
      (!(validatePagesAgainstDocuments qe.pageNumbers docs).isValid &&
        jsTruthyStr (validatePagesAgainstDocuments qe.pageNumbers docs).errorMessage)) =
        true := by
    rw [hv]
    simp [jsTruthyStr, List.length_pos.mpr hpages, hne]
  refine ⟨msg, ?_, hm1, hm2, rfl⟩
  rw [processQuery_invalid_pages c query dataroomId docs strategy qe ab hcond, hv]
  rfl

/-- Witness for C2 at the claim's own example: page 15 against a
10-page document yields a fallback mentioning "15" and "10", with zero
search-collaborator invocations. -/
theorem c2_witness :
    ([c2doc] ≠ ([] : List AccessibleDocument)) ∧
    maxPagesInDocuments [c2doc] ≠ 0 ∧
    invalidPagesFor c2qe.pageNumbers [c2doc] ≠ [] ∧
    ∃ msg, processQuery c2collab false "What is on page 15?" "dr" [c2doc]
        .StandardVectorSearch (some c2qe) false =
        (.answer (.fallback msg), [.fallbackCall msg]) ∧
      mentions msg "15" ∧ mentions msg "10" := by
  refine ⟨by decide, by decide, by decide, ?_⟩
  obtain ⟨msg, h1, h2, h3, h4⟩ := c2_page_validation_gate c2collab
    "What is on page 15?" "dr" [c2doc] .StandardVectorSearch c2qe false
    (by decide) (by decide) (by decide)
  exact ⟨msg, h1, h2, h3⟩

/-!  ## Missing page metadata (C10) -/

theorem maxPages_zero_of_all_zero : ∀ (docs : List AccessibleDocument),
    (∀ d ∈ docs, d.numPages.getD 0 = 0) → maxPagesInDocuments docs = 0 := by
  intro docs
  induction docs with
  | nil => intro _; rfl
  | cons d ds ih =>
    intro h
    have hd := h d (List.mem_cons_self _ _)
    have hrest : ∀ x ∈ ds, x.numPages.getD 0 = 0 :=
      fun x hx => h x (List.mem_cons_of_mem _ hx)
    unfold maxPagesInDocuments at ih ⊢
    simp only [List.map_cons, List.foldl_cons, hd]
    simpa using ih hrest

/-- C10: with explicit page numbers requested, an empty document list —
or one in which no document records a positive page count — makes page
validation fail, and `processQuery` returns the corresponding fallback
without ever invoking the search collaborator, even though the
requested pages might exist in a document whose page count is merely
missing from its metadata. -/
theorem c10_missing_page_info_gate (c : Collaborators)
    (query dataroomId : String) (docs : List AccessibleDocument)
    (strategy : SearchStrategy) (qe : QueryExtraction) (ab : Bool)
    (hpages : qe.pageNumbers ≠ [])
    (hdocs : docs = [] ∨ ∀ d ∈ docs, d.numPages.getD 0 = 0) :
    (validatePagesAgainstDocuments qe.pageNumbers docs).isValid = false ∧
    processQuery c false query dataroomId docs strategy (some qe) ab =
      (.answer (.fallback (if docs.isEmpty
          then "No documents available to validate pages against"
          else "Documents have no page information available")),
       [.fallbackCall (if docs.isEmpty
          then "No documents available to validate pages against"
          else "Documents have no page information available")]) := by
  have hpe : qe.pageNumbers.isEmpty = false := by
    cases hp : qe.pageNumbers with
    | nil => exact absurd hp hpages
    | cons a l => rfl
  have hlen : qe.pageNumbers.length > 0 := List.length_pos.mpr hpages
  by_cases hde : docs.isEmpty
  · have hv : validatePagesAgainstDocuments qe.pageNumbers docs =
        ⟨false, some "No documents available to validate pages against"⟩ := by
      simp only [validatePagesAgainstDocuments, hpe, hde, Bool.false_eq_true,
        if_false, if_true]
    have hcond : (decide (qe.pageNumbers.length > 0) &&
        (!(validatePagesAgainstDocuments qe.pageNumbers docs).isValid &&
          jsTruthyStr (validatePagesAgainstDocuments qe.pageNumbers docs).errorMessage)) =
          true := by
      rw [hv]
      simp [jsTruthyStr, hlen]
    refine ⟨by rw [hv], ?_⟩
    rw [processQuery_invalid_pages c query dataroomId docs strategy qe ab hcond, hv,
      if_pos hde]
    rfl
  · have hall : ∀ d ∈ docs, d.numPages.getD 0 = 0 := by
      rcases hdocs with h0 | hall
      · subst h0
        exact absurd rfl hde
      · exact hall
    have hmax0 : maxPagesInDocuments docs = 0 := maxPages_zero_of_all_zero docs hall
    have hdeb : docs.isEmpty = false := by
      cases hdl : docs with
      | nil => rw [hdl] at hde; exact absurd rfl hde
      | cons a l => rfl
    have hv : validatePagesAgainstDocuments qe.pageNumbers docs =
        ⟨false, some "Documents have no page information available"⟩ := by
      simp only [validatePagesAgainstDocuments, hpe, hdeb, Bool.false_eq_true,
        if_false, hmax0, reduceIte]
    have hcond : (decide (qe.pageNumbers.length > 0) &&
        (!(validatePagesAgainstDocuments qe.pageNumbers docs).isValid &&
          jsTruthyStr (validatePagesAgainstDocuments qe.pageNumbers docs).errorMessage)) =
          true := by
      rw [hv]
      simp [jsTruthyStr, hlen]
    refine ⟨by rw [hv], ?_⟩
    rw [processQuery_invalid_pages c query dataroomId docs strategy qe ab hcond, hv,
      if_neg (by simp [hdeb])]
    rfl

/-- Witness for C10: requesting page 1 against a document whose page
count is missing from its metadata still short-circuits to the
fallback. -/
theorem c10_witness :
    (c10qe.pageNumbers ≠ []) ∧
    (∀ d ∈ [c10doc], d.numPages.getD 0 = 0) ∧
    processQuery c10collab false "q10" "dr" [c10doc] .StandardVectorSearch
      (some c10qe) false =
      (.answer (.fallback "Documents have no page information available"),
       [.fallbackCall "Documents have no page information available"]) := by
  refine ⟨by decide, by decide, ?_⟩
  exact (c10_missing_page_info_gate c10collab "q10" "dr" [c10doc]
    .StandardVectorSearch c10qe false (by decide) (Or.inr (by decide))).2

/-!  ## Error propagation across the `processQuery` boundary (C1) -/

/-- C1: the only values thrown across the `processQuery` boundary are
the disposed-service error and abort-classified (caller-cancellation)
errors, re-thrown unchanged; a thrown `TimeoutError` is converted into
the fixed took-too-long fallback, and every other thrown error is
converted into a fallback keyed on the raw query text — so every
non-disposed, non-cancelled call returns an answer rather than
throwing. -/
theorem c1_error_propagation_policy (c : Collaborators) (isDisposed : Bool)
    (query dataroomId : String) (docs : List AccessibleDocument)
    (strategy : SearchStrategy) (qe : Option QueryExtraction) (ab : Bool) :
    (∀ e, (processQuery c isDisposed query dataroomId docs strategy qe ab).1 =
        .thrown e → isDisposed = true ∨ isAbortClassified e ab = true) ∧
    (∀ e, isAbortClassified e ab = true →
      classifyPipelineError e ab query = .thrown e) ∧
    (∀ e, isAbortClassified e ab = false → e.name = "TimeoutError" →
      classifyPipelineError e ab query = .answer (.fallback timeoutFallbackMessage)) ∧
    (∀ e, isAbortClassified e ab = false → e.name ≠ "TimeoutError" →
      classifyPipelineError e ab query = .answer (.fallback query)) := by
  refine ⟨?_, ?_, ?_, ?_⟩
  · intro e he
    cases isDisposed with
    | true => exact Or.inl rfl
    | false =>
      right
      rw [processQuery, if_neg Bool.false_ne_true] at he
      dsimp only at he
      split at he
      · exact absurd he (by simp)
      · split at he
        · exact absurd he (by simp)
        · simp only [] at he
          rw [classifyPipelineError] at he
          split at he
          · rename_i habort
            rw [ProcessOutcome.thrown.injEq] at he
            rw [← he]
            exact habort
          · split at he
            · exact absurd he (by simp)
            · exact absurd he (by simp)
  · intro e habort
    rw [classifyPipelineError, if_pos habort]
  · intro e habort hname
    rw [classifyPipelineError, if_neg (by simp [habort]),
      if_pos (by simp [hname])]
  · intro e habort hname
    rw [classifyPipelineError, if_neg (by simp [habort]),
      if_neg (by simp [hname])]

/-- Witness for C1: a disposed-free run whose reranker rejects with an
`AbortError` really does throw it unchanged, and each classification
branch evaluates as stated at concrete errors. -/
theorem c1_witness :
    (processQuery c1abortCollab false "q1" "dr" [] .StandardVectorSearch
      none false).1 = .thrown ⟨"AbortError", "rerank aborted"⟩ ∧
    (false = true ∨ isAbortClassified ⟨"AbortError", "rerank aborted"⟩ false = true) ∧
    classifyPipelineError ⟨"AbortError", "x"⟩ false "q1" =
      .thrown ⟨"AbortError", "x"⟩ ∧
    classifyPipelineError ⟨"TimeoutError", "t"⟩ false "q1" =
      .answer (.fallback timeoutFallbackMessage) ∧
    classifyPipelineError ⟨"Error", "boom"⟩ false "q1" =
      .answer (.fallback "q1") := by
  have h := c1_error_propagation_policy c1abortCollab false "q1" "dr" []
    .StandardVectorSearch none false
  exact ⟨by decide,
    h.1 ⟨"AbortError", "rerank aborted"⟩ (by decide),
    h.2.1 ⟨"AbortError", "x"⟩ (by decide),
    h.2.2.1 ⟨"TimeoutError", "t"⟩ (by decide) rfl,
    h.2.2.2 ⟨"Error", "boom"⟩ (by decide) (by decide)⟩

/-!  ## Cancellation-signal composition (C9) -/

/-- C9 (amended): the pipeline signal is the caller's signal when one is
supplied — the internal timer then does not abort the pipeline signal —
and is the timeout signal only when no caller signal exists; the spec's
OR-composition holds only in the no-caller-signal case. -/
theorem c9_signal_selection (s : SignalState) :
    (pipelineSignalAborted false s = specComposedSignalAborted false s) ∧
    (pipelineSignalAborted true s = callerSignalAborted s) ∧
    (callerSignalAborted s = false → timeoutSignalAborted s = true →
      pipelineSignalAborted true s = false) := by
  refine ⟨?_, rfl, ?_⟩
  · simp [pipelineSignalAborted, specComposedSignalAborted]
  · intro h1 _
    simp [pipelineSignalAborted, h1]

/-- C9 counterexample: with a caller signal supplied, unaborted, and the
internal `timeoutMs` timer fired, the pipeline signal has NOT aborted,
while the claimed OR-composition says it has. -/
theorem c9_counterexample :
    pipelineSignalAborted true ⟨false, true⟩ = false ∧
    timeoutSignalAborted ⟨false, true⟩ = true ∧
    specComposedSignalAborted true ⟨false, true⟩ = true :=
  ⟨rfl, rfl, rfl⟩

/-- Witness for C9 (amended) at the diverging scenario. -/
theorem c9_witness :
    callerSignalAborted ⟨false, true⟩ = false ∧
    timeoutSignalAborted ⟨false, true⟩ = true ∧
    pipelineSignalAborted true ⟨false, true⟩ = false :=
  ⟨rfl, rfl, (c9_signal_selection ⟨false, true⟩).2.2 rfl rfl⟩

end RagOrch
